import Mathlib

/-!
Verification of the cwxai-server report-generation backend.

This file gives a shallow embedding of the parts of the code that the
specification talks about:

* the per-user credit ledger (`services/user_crud_service.py`,
  `update_user_credits_by_type`),
* the admission route and the three Celery background tasks
  (`routes/summarized_workflow_route.py`, `tasks.py`),
* the fan-out report generator and the currency helper
  (`services/generate_final_report.py`),
* the content-addressed retrieval-index cache
  (`utils/document_processing.py`).

External collaborators (MongoDB, Azure blob storage, the LLM and embedding
clients, Celery) are modelled as explicit state or as oracles passed in as
function arguments; a Python exception raised by a piece of code is modelled
with `Except`.  Machine integers do not arise: credit balances are Python
ints (arbitrary precision), modelled as `Int`.
-/

namespace CwxAI

/-! ## Credit ledger

`update_user_credits_by_type(user_id, amount, credit_type)` in
`services/user_crud_service.py`: validates `credit_type`, loads the user
document, rejects a debit that exceeds the named bucket, then performs a
MongoDB `$inc` on `credits.<type>_credits` and fails if `modified_count == 0`
(which is the case exactly when the `$inc` amount is `0`).

The per-user document store is modelled as `Option Credits` (the user's
document, when it exists); a raised exception is `Except.error`.  The source
wraps every failure in `Exception(f"Error updating user credits: {e}")`; we
keep the inner message, which is what distinguishes the failure cases. -/

structure Credits where
  free_credits : Int
  paid_credits : Int
deriving Repr, DecidableEq

/-- The balance of the named bucket, as read from
`user['credits'][f'\x7bcredit_type\x7d_credits']`. -/
def Credits.bucket (c : Credits) (credit_type : String) : Int :=
  if credit_type = "free" then c.free_credits else c.paid_credits

/-- The MongoDB `$inc` on `credits.<credit_type>_credits`. -/
def Credits.incBucket (c : Credits) (credit_type : String) (amount : Int) : Credits :=
  if credit_type = "free" then
    ⟨c.free_credits + amount, c.paid_credits⟩
  else
    ⟨c.free_credits, c.paid_credits + amount⟩

/-- Shallow embedding of `update_user_credits_by_type` from
`services/user_crud_service.py` (lines 128-176).  Returns the updated user
document, or the message of the raised exception.  The final
`modified_count == 0` check fires exactly when `$inc` by `0` leaves the
document unmodified. -/
def update_user_credits_by_type (user : Option Credits) (amount : Int)
    (credit_type : String) : Except String Credits :=
  if credit_type ≠ "free" ∧ credit_type ≠ "paid" then
    .error "Invalid credit type. Must be 'free' or 'paid'."
  else
    match user with
    | none => .error "User not found"
    | some c =>
      let current := c.bucket credit_type
      if amount < 0 ∧ |amount| > current then
        .error ("Insufficient " ++ credit_type ++ " credits")
      else if amount = 0 then
        .error "Credit update failed"
      else
        .ok (c.incBucket credit_type amount)

end CwxAI

namespace CwxAI

/-- Unfolding of `update_user_credits_by_type` on the `free` bucket. -/
lemma update_free_eq (f p amount : Int) :
    update_user_credits_by_type (some ⟨f, p⟩) amount "free" =
      if amount < 0 ∧ |amount| > f then
        .error ("Insufficient " ++ "free" ++ " credits")
      else if amount = 0 then .error "Credit update failed"
      else .ok ⟨f + amount, p⟩ := by
  simp [update_user_credits_by_type, Credits.bucket, Credits.incBucket]

/-- Unfolding of `update_user_credits_by_type` on the `paid` bucket. -/
lemma update_paid_eq (f p amount : Int) :
    update_user_credits_by_type (some ⟨f, p⟩) amount "paid" =
      if amount < 0 ∧ |amount| > p then
        .error ("Insufficient " ++ "paid" ++ " credits")
      else if amount = 0 then .error "Credit update failed"
      else .ok ⟨f, p + amount⟩ := by
  simp [update_user_credits_by_type, Credits.bucket, Credits.incBucket]

/-- C2: a debit (`amount < 0`) whose magnitude exceeds the named bucket's
balance raises an insufficient-credits error and changes nothing (in this
embedding an `Except.error` leaves the caller's state untouched); a debit
whose magnitude is at most the balance decrements exactly the named bucket
and leaves the other bucket unchanged; and whenever both balances start
non-negative, they are still non-negative after any successful debit or
credit. -/
theorem update_credits_atomic_debit (c : Credits) (amount : Int)
    (credit_type : String) (htype : credit_type = "free" ∨ credit_type = "paid") :
    (amount < 0 → |amount| > c.bucket credit_type →
      update_user_credits_by_type (some c) amount credit_type =
        .error ("Insufficient " ++ credit_type ++ " credits")) ∧
    (amount < 0 → |amount| ≤ c.bucket credit_type →
      update_user_credits_by_type (some c) amount credit_type =
        .ok (c.incBucket credit_type amount) ∧
      (c.incBucket credit_type amount).bucket credit_type =
        c.bucket credit_type - |amount| ∧
      ∀ other, (other = "free" ∨ other = "paid") → other ≠ credit_type →
        (c.incBucket credit_type amount).bucket other = c.bucket other) ∧
    (0 ≤ c.free_credits → 0 ≤ c.paid_credits →
      ∀ c', update_user_credits_by_type (some c) amount credit_type = .ok c' →
        0 ≤ c'.free_credits ∧ 0 ≤ c'.paid_credits) := by
  obtain ⟨f, p⟩ := c
  rcases htype with h | h <;> subst h
  · -- credit_type = "free"
    refine ⟨fun hneg hgt => ?_, fun hneg hle => ?_, fun hf hp c' hc' => ?_⟩
    · rw [update_free_eq, if_pos ⟨hneg, by simpa [Credits.bucket] using hgt⟩]
    · simp [Credits.bucket] at hle
      have habs : |amount| = -amount := abs_of_neg hneg
      rw [habs] at hle
      have hne : amount ≠ 0 := by omega
      have hnot : ¬ (amount < 0 ∧ |amount| > f) := by rw [habs]; omega
      refine ⟨by rw [update_free_eq, if_neg hnot, if_neg hne]; simp [Credits.incBucket], ?_, ?_⟩
      · simp [Credits.incBucket, Credits.bucket, habs]
      · intro other hother hne'
        rcases hother with h | h
        · exact absurd h hne'
        · subst h; simp [Credits.incBucket, Credits.bucket]
    · rw [update_free_eq] at hc'
      by_cases h1 : amount < 0 ∧ |amount| > f
      · rw [if_pos h1] at hc'; cases hc'
      · rw [if_neg h1] at hc'
        by_cases h2 : amount = 0
        · rw [if_pos h2] at hc'; cases hc'
        · rw [if_neg h2] at hc'
          injection hc' with h3
          rw [← h3]
          have hf' : 0 ≤ f := hf
          have hp' : 0 ≤ p := hp
          refine ⟨show 0 ≤ f + amount from ?_, show 0 ≤ p from hp'⟩
          rcases lt_or_le amount 0 with hneg | hpos
          · have h4 := (not_and.mp h1) hneg
            rw [abs_of_neg hneg] at h4
            omega
          · omega
  · -- credit_type = "paid"
    refine ⟨fun hneg hgt => ?_, fun hneg hle => ?_, fun hf hp c' hc' => ?_⟩
    · rw [update_paid_eq, if_pos ⟨hneg, by simpa [Credits.bucket] using hgt⟩]
    · simp [Credits.bucket] at hle
      have habs : |amount| = -amount := abs_of_neg hneg
      rw [habs] at hle
      have hne : amount ≠ 0 := by omega
      have hnot : ¬ (amount < 0 ∧ |amount| > p) := by rw [habs]; omega
      refine ⟨by rw [update_paid_eq, if_neg hnot, if_neg hne]; simp [Credits.incBucket], ?_, ?_⟩
      · simp [Credits.incBucket, Credits.bucket, habs]
      · intro other hother hne'
        rcases hother with h | h
        · subst h; simp [Credits.incBucket, Credits.bucket]
        · exact absurd h hne'
    · rw [update_paid_eq] at hc'
      by_cases h1 : amount < 0 ∧ |amount| > p
      · rw [if_pos h1] at hc'; cases hc'
      · rw [if_neg h1] at hc'
        by_cases h2 : amount = 0
        · rw [if_pos h2] at hc'; cases hc'
        · rw [if_neg h2] at hc'
          injection hc' with h3
          rw [← h3]
          have hf' : 0 ≤ f := hf
          have hp' : 0 ≤ p := hp
          refine ⟨show 0 ≤ f from hf', show 0 ≤ p + amount from ?_⟩
          rcases lt_or_le amount 0 with hneg | hpos
          · have h4 := (not_and.mp h1) hneg
            rw [abs_of_neg hneg] at h4
            omega
          · omega

/-- Witness for `update_credits_atomic_debit` at the concrete account
`⟨2, 5⟩`, debiting 3 paid credits. -/
theorem update_credits_atomic_debit_witness :
    ((-3 : Int) < 0 → |(-3 : Int)| > (Credits.mk 2 5).bucket "paid" →
      update_user_credits_by_type (some ⟨2, 5⟩) (-3) "paid" =
        .error ("Insufficient " ++ "paid" ++ " credits")) ∧
    ((-3 : Int) < 0 → |(-3 : Int)| ≤ (Credits.mk 2 5).bucket "paid" →
      update_user_credits_by_type (some ⟨2, 5⟩) (-3) "paid" =
        .ok ((Credits.mk 2 5).incBucket "paid" (-3)) ∧
      ((Credits.mk 2 5).incBucket "paid" (-3)).bucket "paid" =
        (Credits.mk 2 5).bucket "paid" - |(-3 : Int)| ∧
      ∀ other, (other = "free" ∨ other = "paid") → other ≠ "paid" →
        ((Credits.mk 2 5).incBucket "paid" (-3)).bucket other =
          (Credits.mk 2 5).bucket other) ∧
    (0 ≤ (Credits.mk 2 5).free_credits → 0 ≤ (Credits.mk 2 5).paid_credits →
      ∀ c', update_user_credits_by_type (some ⟨2, 5⟩) (-3) "paid" = .ok c' →
        0 ≤ c'.free_credits ∧ 0 ≤ c'.paid_credits) :=
  update_credits_atomic_debit ⟨2, 5⟩ (-3) "paid" (Or.inr rfl)

/-! ## Dynamic job payloads and the location defaults (`tasks.py`)

The Celery tasks receive the free-form request body `data` (a Python dict
deserialized from JSON).  `PyVal` models the JSON-ish values that can sit in
its `location` field, together with Python truthiness. -/

inductive PyVal where
  | none
  | str (s : String)
  | int (n : Int)
  | boolv (b : Bool)
deriving Repr, DecidableEq

/-- Python truthiness (`bool(v)`): `None`, `""`, `0` and `False` are falsy. -/
def PyVal.truthy : PyVal → Bool
  | .none => false
  | .str s => s ≠ ""
  | .int n => n ≠ 0
  | .boolv b => b

/-- Python `isinstance(v, str)`. -/
def PyVal.isStr : PyVal → Bool
  | .str _ => true
  | _ => false

/-- `tasks.py` lines 61-63 (`generate_free_report_task`):
`location = data.get("location"); if not location or not
isinstance(location, str): location = "USA"`. -/
def free_task_location (loc : PyVal) : PyVal :=
  if !loc.truthy || !loc.isStr then .str "USA" else loc

/-- `tasks.py` lines 131-133 (`execute_workflow_and_generate_report_task`):
`location = data.get('location'); if not location: location = "entire
world"`. -/
def paid_task_location (loc : PyVal) : PyVal :=
  if !loc.truthy then .str "entire world" else loc

/-- `tasks.py` line 247 (`upgrade_report_to_paid_task`):
`location = location or "USA"`. -/
def upgrade_task_location (loc : PyVal) : PyVal :=
  if !loc.truthy then .str "USA" else loc

/-- C10 counterexample: the paid-tier task does **not** substitute
`"entire world"` for a non-string location when that value is truthy — the
integer `5` is passed through unchanged.  (The upgrade task behaves the same
way with `"USA"`.) -/
theorem paid_location_passthrough_cex :
    paid_task_location (.int 5) = .int 5 ∧
    paid_task_location (.int 5) ≠ .str "entire world" ∧
    upgrade_task_location (.int 5) ≠ .str "USA" := by
  refine ⟨rfl, ?_, ?_⟩ <;> decide

/-- C10 (amended): the free-tier task substitutes `"USA"` for every falsy or
non-string location (so its location is always a string); the paid-tier task
substitutes `"entire world"` and the upgrade task `"USA"` exactly when the
location is falsy — a truthy non-string location is passed through
unchanged. -/
theorem location_defaults (loc : PyVal) :
    ((loc.truthy = false ∨ loc.isStr = false) →
      free_task_location loc = .str "USA") ∧
    (loc.truthy = true → loc.isStr = true → free_task_location loc = loc) ∧
    ((free_task_location loc).isStr = true) ∧
    (loc.truthy = false →
      paid_task_location loc = .str "entire world" ∧
      upgrade_task_location loc = .str "USA") ∧
    (loc.truthy = true →
      paid_task_location loc = loc ∧ upgrade_task_location loc = loc) := by
  refine ⟨?_, ?_, ?_, ?_, ?_⟩
  · intro h
    rcases h with h | h <;> simp [free_task_location, h]
  · intro h1 h2
    simp [free_task_location, h1, h2]
  · cases loc with
    | none => rfl
    | str s =>
      by_cases h : s = "" <;>
        simp [free_task_location, PyVal.truthy, PyVal.isStr, h]
    | int n => simp [free_task_location, PyVal.isStr]
    | boolv b => simp [free_task_location, PyVal.isStr]
  · intro h
    simp [paid_task_location, upgrade_task_location, h]
  · intro h
    simp [paid_task_location, upgrade_task_location, h]

/-- Witness for `location_defaults` at the falsy value `PyVal.none`. -/
theorem location_defaults_witness :
    (((PyVal.none).truthy = false ∨ (PyVal.none).isStr = false) →
      free_task_location .none = .str "USA") ∧
    ((PyVal.none).truthy = true → (PyVal.none).isStr = true →
      free_task_location .none = .none) ∧
    ((free_task_location .none).isStr = true) ∧
    ((PyVal.none).truthy = false →
      paid_task_location .none = .str "entire world" ∧
      upgrade_task_location .none = .str "USA") ∧
    ((PyVal.none).truthy = true →
      paid_task_location .none = .none ∧ upgrade_task_location .none = .none) :=
  location_defaults .none

/-! ## Background tasks: refund on failure (`tasks.py`)

Each Celery task body either returns normally, raises an ordinary exception,
or receives `SoftTimeLimitExceeded` (which subclasses `Exception`, so the
free task's single `except Exception` handler catches it too).  The work
performed by the body touches only external services, so its effect on the
credit ledger is fully determined by which of these outcomes occurs; the
outcome is passed in as an oracle.  `TaskRun` records the user document
after the task, the successful compensating-credit calls it made
(bucket, amount), and whether the original error was re-raised. -/

inductive TaskOutcome where
  | success
  | failure (msg : String)
  | softTimeLimit (msg : String)
deriving Repr, DecidableEq

structure TaskRun where
  user : Option Credits
  refunds : List (String × Int)
  raised : Bool
deriving Repr, DecidableEq

/-- `generate_free_report_task` (`tasks.py` lines 47-118): on any exception,
refund one `free` credit (a failure of the refund itself is swallowed) and
re-raise. -/
def generate_free_report_task (user : Option Credits) (o : TaskOutcome) :
    TaskRun :=
  match o with
  | .success => ⟨user, [], false⟩
  | _ =>
    match update_user_credits_by_type user 1 "free" with
    | .ok c => ⟨some c, [("free", 1)], true⟩
    | .error _ => ⟨user, [], true⟩

/-- `execute_workflow_and_generate_report_task` (`tasks.py` lines 122-231):
separate handlers for `SoftTimeLimitExceeded` and `Exception`, both
refunding one `paid` credit before re-raising. -/
def execute_workflow_and_generate_report_task (user : Option Credits)
    (o : TaskOutcome) : TaskRun :=
  match o with
  | .success => ⟨user, [], false⟩
  | _ =>
    match update_user_credits_by_type user 1 "paid" with
    | .ok c => ⟨some c, [("paid", 1)], true⟩
    | .error _ => ⟨user, [], true⟩

/-- `upgrade_report_to_paid_task` (`tasks.py` lines 237-318): same shape as
the paid workflow task; both failure handlers refund one `paid` credit and
re-raise. -/
def upgrade_report_to_paid_task (user : Option Credits) (o : TaskOutcome) :
    TaskRun :=
  match o with
  | .success => ⟨user, [], false⟩
  | _ =>
    match update_user_credits_by_type user 1 "paid" with
    | .ok c => ⟨some c, [("paid", 1)], true⟩
    | .error _ => ⟨user, [], true⟩

/-- Admission in `routes/summarized_workflow_route.py` (lines 81-112) and in
the upgrade route (lines 187-196): read the balances, reject when the named
bucket is below 1, then debit one credit via `update_user_credits_by_type`
and enqueue the task. -/
def route_admission (user : Option Credits) (credit_type : String) :
    Except String Credits :=
  match user with
  | none => .error "Internal server error during report generation"
  | some c =>
    if c.bucket credit_type < 1 then
      .error ("Insufficient " ++ credit_type ++ " credits")
    else
      match update_user_credits_by_type (some c) (-1) credit_type with
      | .ok c' => .ok c'
      | .error _ => .error ("Failed to deduct " ++ credit_type ++ " credit")

end CwxAI

namespace CwxAI

/-- Debiting then refunding one credit on the same bucket restores the
account. -/
lemma incBucket_neg_one_one (c : Credits) (t : String) :
    (c.incBucket t (-1)).incBucket t 1 = c := by
  obtain ⟨f, p⟩ := c
  by_cases h : t = "free" <;> simp [Credits.incBucket, h]

/-- Refund of one credit to an existing user always succeeds. -/
lemma refund_one_ok (c : Credits) (t : String) (ht : t = "free" ∨ t = "paid") :
    update_user_credits_by_type (some c) 1 t = .ok (c.incBucket t 1) := by
  obtain ⟨f, p⟩ := c
  rcases ht with h | h <;> subst h
  · rw [update_free_eq]
    norm_num
    rfl
  · rw [update_paid_eq]
    norm_num
    rfl

/-- Admission with at least one credit in the named bucket debits exactly
that bucket by one. -/
lemma route_admission_ok (c : Credits) (t : String)
    (ht : t = "free" ∨ t = "paid") (hbal : 1 ≤ c.bucket t) :
    route_admission (some c) t = .ok (c.incBucket t (-1)) := by
  obtain ⟨f, p⟩ := c
  rcases ht with h | h <;> subst h
  · have hbf : 1 ≤ f := by simpa [Credits.bucket] using hbal
    simp [route_admission, Credits.bucket, update_user_credits_by_type,
      Credits.incBucket, show ¬ (f < 1) by omega,
      abs_of_neg (show (-1 : Int) < 0 by norm_num), show ¬ ((1 : Int) > f) by omega]
  · have hbp : 1 ≤ p := by simpa [Credits.bucket] using hbal
    simp [route_admission, Credits.bucket, update_user_credits_by_type,
      Credits.incBucket, show ¬ (p < 1) by omega,
      abs_of_neg (show (-1 : Int) < 0 by norm_num), show ¬ ((1 : Int) > p) by omega]

/-- C1: for each of the three background tasks, a failing execution — an
uncaught exception or the soft time limit — issues exactly one compensating
credit of amount 1 to the bucket that was debited at admission (`free` for
the free-tier task, `paid` for the paid and upgrade tasks) and re-raises;
a successful execution issues no refund; composed with the admission debit,
a failed job leaves the balance exactly as it was before submission. -/
theorem task_refund_on_failure (c : Credits) (o : TaskOutcome)
    (hfree : 1 ≤ c.free_credits) (hpaid : 1 ≤ c.paid_credits)
    (ho : o ≠ .success) :
    (route_admission (some c) "free" = .ok (c.incBucket "free" (-1)) ∧
      generate_free_report_task (some (c.incBucket "free" (-1))) o =
        ⟨some c, [("free", 1)], true⟩) ∧
    (route_admission (some c) "paid" = .ok (c.incBucket "paid" (-1)) ∧
      execute_workflow_and_generate_report_task
          (some (c.incBucket "paid" (-1))) o = ⟨some c, [("paid", 1)], true⟩ ∧
      upgrade_report_to_paid_task (some (c.incBucket "paid" (-1))) o =
        ⟨some c, [("paid", 1)], true⟩) ∧
    (∀ u, generate_free_report_task u .success = ⟨u, [], false⟩ ∧
      execute_workflow_and_generate_report_task u .success = ⟨u, [], false⟩ ∧
      upgrade_report_to_paid_task u .success = ⟨u, [], false⟩) := by
  have hfree' : route_admission (some c) "free" = .ok (c.incBucket "free" (-1)) :=
    route_admission_ok c "free" (Or.inl rfl)
      (by simpa [Credits.bucket] using hfree)
  have hpaid' : route_admission (some c) "paid" = .ok (c.incBucket "paid" (-1)) :=
    route_admission_ok c "paid" (Or.inr rfl)
      (by obtain ⟨f, p⟩ := c; simpa [Credits.bucket] using hpaid)
  have hrf : update_user_credits_by_type (some (c.incBucket "free" (-1))) 1 "free" =
      .ok c := by
    rw [refund_one_ok _ _ (Or.inl rfl), incBucket_neg_one_one]
  have hrp : update_user_credits_by_type (some (c.incBucket "paid" (-1))) 1 "paid" =
      .ok c := by
    rw [refund_one_ok _ _ (Or.inr rfl), incBucket_neg_one_one]
  refine ⟨⟨hfree', ?_⟩, ⟨hpaid', ?_, ?_⟩, fun u => ⟨rfl, rfl, rfl⟩⟩ <;>
    cases o with
    | success => exact absurd rfl ho
    | failure msg =>
      simp [generate_free_report_task, execute_workflow_and_generate_report_task,
        upgrade_report_to_paid_task, hrf, hrp]
    | softTimeLimit msg =>
      simp [generate_free_report_task, execute_workflow_and_generate_report_task,
        upgrade_report_to_paid_task, hrf, hrp]

/-- Witness for `task_refund_on_failure` at the account `⟨1, 1⟩` and a
concrete failing outcome. -/
theorem task_refund_on_failure_witness :
    (route_admission (some ⟨1, 1⟩) "free" =
        .ok ((Credits.mk 1 1).incBucket "free" (-1)) ∧
      generate_free_report_task
          (some ((Credits.mk 1 1).incBucket "free" (-1)))
          (.failure "boom") = ⟨some ⟨1, 1⟩, [("free", 1)], true⟩) ∧
    (route_admission (some ⟨1, 1⟩) "paid" =
        .ok ((Credits.mk 1 1).incBucket "paid" (-1)) ∧
      execute_workflow_and_generate_report_task
          (some ((Credits.mk 1 1).incBucket "paid" (-1)))
          (.failure "boom") = ⟨some ⟨1, 1⟩, [("paid", 1)], true⟩ ∧
      upgrade_report_to_paid_task
          (some ((Credits.mk 1 1).incBucket "paid" (-1)))
          (.failure "boom") = ⟨some ⟨1, 1⟩, [("paid", 1)], true⟩) ∧
    (∀ u, generate_free_report_task u .success = ⟨u, [], false⟩ ∧
      execute_workflow_and_generate_report_task u .success = ⟨u, [], false⟩ ∧
      upgrade_report_to_paid_task u .success = ⟨u, [], false⟩) :=
  task_refund_on_failure ⟨1, 1⟩ (.failure "boom") (by norm_num) (by norm_num)
    (by decide)

/-! ## Progress updates (`tasks.py`)

Each task calls `self.update_state(state="PROGRESS", meta=...)` a fixed
number of times, in program order.  The lists below are those `meta`
dictionaries `(current, total, status)` in the order the source emits them;
a failing run emits a prefix of the list, a successful run emits all of
it. -/

/-- The `update_state` metas of `generate_free_report_task`
(`tasks.py` lines 50-83). -/
def generate_free_report_task_updates : List (Nat × Nat × String) :=
  [(1, 3, "Starting with your dream"),
   (2, 3, "Adding the AI magic"),
   (3, 3, "Finalising for you")]

/-- The `update_state` metas of `execute_workflow_and_generate_report_task`
(`tasks.py` lines 127-173). -/
def execute_workflow_task_updates : List (Nat × Nat × String) :=
  [(1, 8, "Analyzing the Idea"),
   (2, 8, "Exploring Possibilities"),
   (3, 8, "Shaping the Vision"),
   (4, 8, "Gathering Insights"),
   (5, 8, "Uncovering Opportunities"),
   (6, 8, "Crafting the Narrative"),
   (7, 8, "Bringing it to Life"),
   (8, 8, "Finalizing the Blueprint")]

end CwxAI

namespace CwxAI

/-- C8: the paid-tier task emits steps 1..8 with constant total 8 and the
free-tier task steps 1..3 with constant total 3; every emitted prefix is
non-decreasing in the step value, and on success (the full sequence) the
last emitted step equals the total. -/
theorem progress_monotone :
    (execute_workflow_task_updates.map (fun u => u.1) =
      [1, 2, 3, 4, 5, 6, 7, 8]) ∧
    (execute_workflow_task_updates.map (fun u => u.2.1) =
      [8, 8, 8, 8, 8, 8, 8, 8]) ∧
    (∀ n, List.Chain' (· ≤ ·)
      ((execute_workflow_task_updates.map (fun u => u.1)).take n)) ∧
    ((execute_workflow_task_updates.map (fun u => u.1)).getLast? = some 8) ∧
    (generate_free_report_task_updates.map (fun u => u.1) = [1, 2, 3]) ∧
    (generate_free_report_task_updates.map (fun u => u.2.1) = [3, 3, 3]) ∧
    (∀ n, List.Chain' (· ≤ ·)
      ((generate_free_report_task_updates.map (fun u => u.1)).take n)) ∧
    ((generate_free_report_task_updates.map (fun u => u.1)).getLast? =
      some 3) := by
  refine ⟨rfl, rfl, fun n => ?_, rfl, rfl, rfl, fun n => ?_, rfl⟩
  · exact List.Chain'.take
      (by simp [execute_workflow_task_updates, List.chain'_cons]) n
  · exact List.Chain'.take
      (by simp [generate_free_report_task_updates, List.chain'_cons]) n

/-! ## Status queries (`routes/summarized_workflow_route.py`)

`workflow_task_status` builds its response from the Celery `AsyncResult` of
the requested id.  Celery reports state `"PENDING"` for any id it has no
record of, so an unknown id is indistinguishable from a job that exists but
has not started.  The backend's record of known tasks is modelled as an
association list from task id to Celery state. -/

inductive CeleryState where
  | pending
  | progress (current total : Nat) (status : String)
  | success (result : String)
  | failure (err : String)
deriving Repr, DecidableEq

/-- `AsyncResult(task_id).state` for a backend holding `store`: an id the
backend has never seen reports `PENDING`. -/
def asyncResultState (store : List (String × CeleryState)) (task_id : String) :
    CeleryState :=
  (store.lookup task_id).getD .pending

/-- The JSON body `workflow_task_status` returns (lines 125-144):
`state`, a `progress` object, and `result` / `error` only on
`SUCCESS` / `FAILURE`.  The route always answers HTTP 200. -/
structure StatusResponse where
  state : String
  progress : Option (Nat × Nat × String)
  result : Option String
  error : Option String
deriving Repr, DecidableEq

/-- `workflow_task_status` (`routes/summarized_workflow_route.py` lines
125-144). -/
def workflow_task_status (store : List (String × CeleryState))
    (task_id : String) : StatusResponse :=
  match asyncResultState store task_id with
  | .pending => ⟨"PENDING", none, none, none⟩
  | .progress current total status =>
    ⟨"PROGRESS", some (current, total, status), none, none⟩
  | .success r => ⟨"SUCCESS", some (1, 1, "Completed"), some r, none⟩
  | .failure e => ⟨"FAILURE", some (0, 0, "Failed"), none, some e⟩

/-- C9 counterexample: querying an unknown id is **not** a distinct error
outcome.  With an empty backend, the response for the never-created id
`"ghost"` carries no error field and is byte-for-byte identical to the
response for a real, just-enqueued pending job — so the only distinct thing
about it is the ordinary `PENDING` state. -/
theorem unknown_task_id_not_error_cex :
    workflow_task_status [] "ghost" =
      workflow_task_status [("job1", .pending)] "job1" ∧
    (workflow_task_status [] "ghost").error = none ∧
    (workflow_task_status [] "ghost").state = "PENDING" := by
  refine ⟨rfl, rfl, rfl⟩

/-- C9 (amended): querying an unknown job id yields the ordinary `PENDING`
response (no error field, empty progress); it is distinguishable from any
terminal (`SUCCESS` or `FAILURE`) response by the `state` field, but it is
not an error and is indistinguishable from an existing pending job. -/
theorem unknown_task_id_pending (store : List (String × CeleryState))
    (task_id : String) (hunknown : store.lookup task_id = none) :
    workflow_task_status store task_id = ⟨"PENDING", none, none, none⟩ ∧
    (∀ store' id' r, asyncResultState store' id' = .success r →
      (workflow_task_status store' id').state ≠
        (workflow_task_status store task_id).state) ∧
    (∀ store' id' e, asyncResultState store' id' = .failure e →
      (workflow_task_status store' id').state ≠
        (workflow_task_status store task_id).state) := by
  have hstate : asyncResultState store task_id = .pending := by
    simp [asyncResultState, hunknown]
  refine ⟨by simp [workflow_task_status, hstate], ?_, ?_⟩
  · intro store' id' r h
    simp [workflow_task_status, hstate, h]
  · intro store' id' e h
    simp [workflow_task_status, hstate, h]

/-! ## Concurrent admission (`routes/summarized_workflow_route.py` +
`services/user_crud_service.py`)

A submission's effect on the shared user document decomposes into three
atomic database operations, with all intervening checks performed on
process-local copies:

1. `get_user_credits` reads the balances; the route rejects when the named
   bucket is below 1 (route lines 82-90 / 101-103);
2. `update_user_credits_by_type` re-reads the document with `find_one` and
   raises when `abs(amount) > current` (service lines 151-158);
3. the MongoDB `$inc` unconditionally decrements the bucket (service lines
   160-166) — the filter is only `_id`, not a balance condition.

Two concurrent submissions for the same user and bucket interleave these
steps.  `bal` is the shared bucket balance; each process carries a program
counter. -/

inductive AdmissionPc where
  | routeCheck
  | svcCheck
  | debit
  | enqueued
  | rejected
deriving Repr, DecidableEq

/-- One atomic step of a single submission against the shared balance. -/
def admission_step (bal : Int) : AdmissionPc → Int × AdmissionPc
  | .routeCheck => if bal < 1 then (bal, .rejected) else (bal, .svcCheck)
  | .svcCheck => if 1 > bal then (bal, .rejected) else (bal, .debit)
  | .debit => (bal - 1, .enqueued)
  | pc => (bal, pc)

/-- Run two concurrent submissions under a schedule: `true` steps the first
process, `false` the second. -/
def admission_run (bal : Int) (p1 p2 : AdmissionPc) :
    List Bool → Int × AdmissionPc × AdmissionPc
  | [] => (bal, p1, p2)
  | true :: rest =>
    let s := admission_step bal p1
    admission_run s.1 s.2 p2 rest
  | false :: rest =>
    let s := admission_step bal p2
    admission_run s.1 p1 s.2 rest

/-- C3: the debit is a read-check-then-blind-`$inc`, not an atomic
compare-and-decrement.  With balance 1, the interleaving that runs both
route checks and both service checks before either `$inc` admits **both**
submissions and drives the balance to **-1**; only a fully sequential
schedule rejects the second submission.  This contradicts the admission
atomicity the specification requires. -/
theorem concurrent_admission_race :
    admission_run 1 .routeCheck .routeCheck
        [true, false, true, false, true, false] =
      (-1, .enqueued, .enqueued) ∧
    admission_run 1 .routeCheck .routeCheck
        [true, true, true, false, false, false] =
      (0, .enqueued, .rejected) := by
  refine ⟨rfl, rfl⟩

/-! ## Fan-out report generation (`services/generate_final_report.py`)

`generate_full_final_parallel_executed_report` pre-populates the result
dict with the sequentially generated `overall_context_summary`, then runs
the 22 section generators in a thread pool; a section whose future raises
contributes `"Error generating <name>: <message>"` to its own slot and
nothing else.  The per-section outcome (content or raised message) is an
oracle `section_result`; the result dict is an association list. -/

/-- The 22 entries of `report_section_tasks` (lines 952-975), in source
order. -/
def report_section_tasks : List String :=
  ["executive_summary", "problem_validation", "market_analysis",
   "market_size_estimation", "swot_analysis", "vrio_analysis",
   "pestel_analysis", "porters_five_forces", "venture_insights",
   "industry_insights", "catwoe_analysis", "strategy",
   "marketing_strategy", "social_media_strategy", "slogan",
   "marketing_channels", "mvp", "usp", "customer_persona", "finances",
   "go_to_market_strategy", "competitive_analysis"]

/-- The content stored in a section's slot (lines 986-994): the generated
text, or the error placeholder when the future raised. -/
def section_slot (name : String) (section_result : Except String String) :
    String :=
  match section_result with
  | .ok content => content
  | .error e => "Error generating " ++ name ++ ": " ++ e

/-- `generate_full_final_parallel_executed_report` (lines 919-997), as a
function of the precomputed shared summary and the per-section outcomes. -/
def generate_full_final_parallel_executed_report
    (overall_context_summary : String)
    (section_result : String → Except String String) :
    List (String × String) :=
  ("overall_context_summary", overall_context_summary) ::
    report_section_tasks.map fun name =>
      (name, section_slot name (section_result name))

/-- Looking a key up in the association list built by mapping each key to a
value computed from it returns that computed value. -/
lemma lookup_map_fun (f : String → String) (l : List String) (name : String)
    (h : name ∈ l) :
    (l.map fun n => (n, f n)).lookup name = some (f name) := by
  induction l with
  | nil => cases h
  | cons a t ih =>
    by_cases hn : name = a
    · subst hn
      simp [List.lookup]
    · have : name ∈ t := by
        rcases List.mem_cons.mp h with h' | h'
        · exact absurd h' hn
        · exact h'
      have hbeq : (name == a) = false := beq_false_of_ne hn
      simp [List.lookup, hbeq, ih this]

/-- C4: whatever subset of the 22 section generators raises, the fan-out
orchestrator returns normally with exactly 23 slots — the shared summary
plus one per section; a failed section's slot holds
`"Error generating <name>: <message>"` and every successful section's slot
holds its generated content. -/
theorem fanout_failure_isolation (overall : String)
    (section_result : String → Except String String) :
    (generate_full_final_parallel_executed_report overall
        section_result).length = 23 ∧
    (generate_full_final_parallel_executed_report overall
        section_result).lookup "overall_context_summary" = some overall ∧
    (∀ name, name ∈ report_section_tasks →
      (generate_full_final_parallel_executed_report overall
          section_result).lookup name =
        some (section_slot name (section_result name))) := by
  refine ⟨?_, rfl, ?_⟩
  · simp [generate_full_final_parallel_executed_report, report_section_tasks]
  · intro name hmem
    have hne : (name == "overall_context_summary") = false := by
      refine beq_false_of_ne ?_
      intro h
      subst h
      revert hmem
      decide
    show (List.lookup name (("overall_context_summary", overall) ::
      report_section_tasks.map fun n =>
        (n, section_slot n (section_result n)))) = _
    rw [List.lookup]
    simp only [hne]
    exact lookup_map_fun (fun n => section_slot n (section_result n))
      report_section_tasks name hmem

/-- Witness for `fanout_failure_isolation`: one failing section
(`swot_analysis`) among the 22. -/
theorem fanout_failure_isolation_witness :
    (generate_full_final_parallel_executed_report "ctx"
        (fun name => if name = "swot_analysis" then .error "rate limited"
          else .ok ("body of " ++ name))).length = 23 ∧
    (generate_full_final_parallel_executed_report "ctx"
        (fun name => if name = "swot_analysis" then .error "rate limited"
          else .ok ("body of " ++ name))).lookup "overall_context_summary" =
      some "ctx" ∧
    (∀ name, name ∈ report_section_tasks →
      (generate_full_final_parallel_executed_report "ctx"
          (fun name => if name = "swot_analysis" then .error "rate limited"
            else .ok ("body of " ++ name))).lookup name =
        some (section_slot name
          (if name = "swot_analysis" then .error "rate limited"
            else .ok ("body of " ++ name)))) :=
  fanout_failure_isolation "ctx"
    (fun name => if name = "swot_analysis" then .error "rate limited"
      else .ok ("body of " ++ name))

/-! ## Currency helper (`services/generate_final_report.py` lines 26-63)

`get_currency_via_llm` makes one generation call; `LLMReply` is its outcome
(the reply text, or a raised exception).  The code computes
`response...content.strip().upper()` and accepts it only when it fully
matches `^[A-Z]{3}$`.  `py_strip`/`py_upper` model Python's `str.strip` /
`str.upper` on the ASCII fragment. -/

/-- The characters `str.strip()` removes (ASCII whitespace). -/
def is_py_space (c : Char) : Bool :=
  c = ' ' || c = '\t' || c = '\n' || c = '\r' || c = '\x0b' || c = '\x0c'

/-- Python `s.strip()` (ASCII fragment). -/
def py_strip (s : String) : String :=
  ⟨((s.data.dropWhile is_py_space).reverse.dropWhile is_py_space).reverse⟩

/-- Python `s.upper()` (ASCII fragment). -/
def py_upper (s : String) : String :=
  ⟨s.data.map Char.toUpper⟩

/-- `re.fullmatch(r"^[A-Z]{3}$", s)` as a Boolean. -/
def fullmatch_AZ3 (s : String) : Bool :=
  s.length = 3 && s.data.all fun c => 'A' ≤ c && c ≤ 'Z'

inductive LLMReply where
  | content (s : String)
  | raised (e : String)
deriving Repr, DecidableEq

/-- `get_currency_via_llm` (lines 26-63) as a function of the generation
call's outcome. -/
def get_currency_via_llm (reply : LLMReply) : String :=
  match reply with
  | .raised _ => "USD"
  | .content s =>
    let currency_code := py_upper (py_strip s)
    if fullmatch_AZ3 currency_code then currency_code else "USD"

/-- C6: for a reply `s`, the helper returns `upper(strip(s))` exactly when
that value matches `^[A-Z]{3}$` and the fixed fallback `"USD"` otherwise;
a raised generation call also silently yields `"USD"`; hence the returned
code always matches `^[A-Z]{3}$`. -/
theorem currency_always_valid (s e : String) :
    get_currency_via_llm (.content s) =
      (if fullmatch_AZ3 (py_upper (py_strip s)) then py_upper (py_strip s)
        else "USD") ∧
    get_currency_via_llm (.raised e) = "USD" ∧
    (∀ reply, fullmatch_AZ3 (get_currency_via_llm reply) = true) := by
  refine ⟨rfl, rfl, ?_⟩
  intro reply
  cases reply with
  | raised e' => rfl
  | content s' =>
    show fullmatch_AZ3
      (if fullmatch_AZ3 (py_upper (py_strip s')) then py_upper (py_strip s')
        else "USD") = true
    by_cases h : fullmatch_AZ3 (py_upper (py_strip s')) = true
    · rw [if_pos h, h]
    · rw [if_neg (by simpa using h)]
      decide

/-- Witness for `unknown_task_id_pending` on an empty backend. -/
theorem unknown_task_id_pending_witness :
    workflow_task_status [] "ghost" = ⟨"PENDING", none, none, none⟩ ∧
    (∀ store' id' r, asyncResultState store' id' = .success r →
      (workflow_task_status store' id').state ≠
        (workflow_task_status [] "ghost").state) ∧
    (∀ store' id' e, asyncResultState store' id' = .failure e →
      (workflow_task_status store' id').state ≠
        (workflow_task_status [] "ghost").state) :=
  unknown_task_id_pending [] "ghost" rfl

/-! ## Retrieval index cache (`utils/document_processing.py`)

The blob container holds three families of values at disjoint key
namespaces: the raw artifact bytes, the fingerprint markers
(`..._data_hash.txt`, a text blob), and the serialized FAISS indexes
(`faiss_index_....zip`).  `BlobVal` models the three; `BlobStore` is the
container (an association list where an upload prepends, so lookup sees the
latest write — `overwrite=True`).

The hash function (`hashlib.sha256(...).hexdigest()`) is a parameter
`hash`, exactly as the code delegates it to `hashlib`; `chunksOf` stands
for the composition `preprocess_json` + `split_documents` (JSON parsing and
langchain text splitting, both external libraries) applied to the artifact
bytes; `embed` is the per-chunk embedding call, which either returns a
vector or raises. -/

structure FaissIndex where
  chunks : List String
  vectors : List (List Int)
deriving Repr, DecidableEq

inductive BlobVal where
  | raw (b : List Nat)
  | text (s : String)
  | zip (v : FaissIndex)
deriving Repr, DecidableEq

abbrev BlobStore := List (String × BlobVal)

/-- `blob_exists` (lines 29-32). -/
def blob_exists (st : BlobStore) (blob_name : String) : Bool :=
  (st.lookup blob_name).isSome

/-- `upload_blob_data` with `overwrite=True` (lines 34-38). -/
def upload_blob_data (st : BlobStore) (blob_name : String) (v : BlobVal) :
    BlobStore :=
  (blob_name, v) :: st

/-- `os.path.basename`: the path component after the last `/`. -/
def basename (p : String) : String :=
  ⟨(p.data.reverse.takeWhile (fun c => c ≠ '/')).reverse⟩

/-- Python `s.startswith(pre)`. -/
def str_startswith (s pre : String) : Bool := pre.data.isPrefixOf s.data

/-- Python `s.endswith(suf)`. -/
def str_endswith (s suf : String) : Bool := suf.data.isSuffixOf s.data

/-- Python `s[:-n]` for `0 < n ≤ len(s)`. -/
def str_drop_right (s : String) (n : Nat) : String :=
  ⟨s.data.take (s.data.length - n)⟩

/-- The stem `os.path.splitext(base)[0]`: the base name with its last
extension removed.  (The leading-dot special case of `splitext` is not
exercised by the cache-key names, which always carry a hyphenated stem.) -/
def splitext_root (base : String) : String :=
  if base.data.contains '.' then
    let suffixLen := (base.data.reverse.takeWhile (fun c => c ≠ '.')).length
    ⟨base.data.take (base.data.length - 1 - suffixLen)⟩
  else base

/-- `get_blob_file_base` (lines 46-58). -/
def get_blob_file_base (user_id file_path : String) : String :=
  let base := basename file_path
  if str_startswith base (user_id ++ "-") && str_endswith base ".json" then
    str_drop_right base 5
  else
    user_id ++ "-" ++ splitext_root base

/-- `compute_file_hash` (lines 84-93): hash of the downloaded artifact
bytes; any download failure is swallowed and yields `""`. -/
def compute_file_hash (hash : List Nat → String) (st : BlobStore)
    (file_path : String) : String :=
  match st.lookup file_path with
  | some (.raw b) => hash b
  | _ => ""

/-- The fingerprint-marker blob name used by lines 217 and 356. -/
def hash_marker_name (user_id file_path : String) : String :=
  "user_cache/" ++ user_id ++ "/" ++ get_blob_file_base user_id file_path ++
    "_data_hash.txt"

/-- The serialized-index blob name used by line 241. -/
def faiss_index_name (user_id file_path : String) : String :=
  "user_cache/" ++ user_id ++ "/faiss_index_" ++
    get_blob_file_base user_id file_path ++ ".zip"

/-- `check_file_for_changes` (lines 209-228): returns `false` ("unchanged")
iff the stored marker exists and equals the freshly computed hash; in every
other case it uploads the fresh hash as the new marker and returns `true`.
A non-text value at the marker key decodes to something that cannot equal
the hex digest, i.e. a mismatch. -/
def check_file_for_changes (hash : List Nat → String) (st : BlobStore)
    (file_path user_id : String) : Bool × BlobStore :=
  let current_hash := compute_file_hash hash st file_path
  let blob_hash_name := hash_marker_name user_id file_path
  match st.lookup blob_hash_name with
  | some (.text previous_hash) =>
    if current_hash = previous_hash then (false, st)
    else (true, upload_blob_data st blob_hash_name (.text current_hash))
  | _ => (true, upload_blob_data st blob_hash_name (.text current_hash))

/-- `list(executor.map(embeddings.embed_query, document_texts))` (lines
323-324): the embeddings of all chunks, or the first raised exception —
one failing chunk fails the whole `list(...)`. -/
def map_embed (embed : String → Except String (List Int)) :
    List String → Except String (List (List Int))
  | [] => .ok []
  | c :: rest =>
    match embed c with
    | .error e => .error e
    | .ok v =>
      match map_embed embed rest with
      | .error e => .error e
      | .ok vs => .ok (v :: vs)

/-- `rebuild_faiss_index` (lines 295-366).  Returns the built index (or
`none`) together with the updated blob store.  The `try` block wraps
everything from the embedding computation on, so an embedding failure for
any chunk is caught at line 364 and yields `None` with **no** uploads; on
success the serialized index and the fresh fingerprint marker are
uploaded.  `chunksOf bytes = []` covers both "no documents found" and "no
valid document chunks". -/
def rebuild_faiss_index (hash : List Nat → String)
    (chunksOf : List Nat → List String)
    (embed : String → Except String (List Int)) (st : BlobStore)
    (user_id file_path blob_index_name : String) :
    Option FaissIndex × BlobStore :=
  match st.lookup file_path with
  | some (.raw bytes) =>
    let current_hash := hash bytes
    let chunked_docs := chunksOf bytes
    if chunked_docs = [] then (none, st)
    else
      match map_embed embed chunked_docs with
      | .error _ => (none, st)
      | .ok vecs =>
        let vectorstore : FaissIndex := ⟨chunked_docs, vecs⟩
        let st₁ := upload_blob_data st blob_index_name (.zip vectorstore)
        let st₂ := upload_blob_data st₁ (hash_marker_name user_id file_path)
          (.text current_hash)
        (some vectorstore, st₂)
  | _ => (none, st)

/-- The in-process `FAISS_INDEX_CACHE` (line 231), keyed by the index blob
name. -/
abbrev FaissCache := List (String × FaissIndex)

/-- The observable outcome of one `initialize_retriever` call: the returned
index (`none` models the `return None` path), the in-process cache and blob
store afterwards, and whether the rebuild path was taken. -/
structure RetrieverRun where
  index : Option FaissIndex
  cache : FaissCache
  store : BlobStore
  rebuilt : Bool
deriving Repr, DecidableEq

/-- The shared tail of `initialize_retriever` (lines 283-293): rebuild,
and on success populate the in-process cache. -/
def init_retriever_rebuild (hash : List Nat → String)
    (chunksOf : List Nat → List String)
    (embed : String → Except String (List Int)) (cache : FaissCache)
    (st : BlobStore) (user_id file_path blob_index_name : String) :
    RetrieverRun :=
  match rebuild_faiss_index hash chunksOf embed st user_id file_path
      blob_index_name with
  | (some v, st') => ⟨some v, (blob_index_name, v) :: cache, st', true⟩
  | (none, st') => ⟨none, cache, st', true⟩

/-- `initialize_retriever` (lines 233-293).  Cache hit: return the cached
index with no fingerprint check.  Cache miss: run
`check_file_for_changes`; if unchanged and the serialized index blob
exists, deserialize it and populate the cache (a non-zip value at the
index key raises during deserialization and falls through to the rebuild,
line 280-281); otherwise rebuild. -/
def init_retriever (hash : List Nat → String)
    (chunksOf : List Nat → List String)
    (embed : String → Except String (List Int)) (cache : FaissCache)
    (st : BlobStore) (user_id file_path : String) : RetrieverRun :=
  let blob_index_name := faiss_index_name user_id file_path
  match cache.lookup blob_index_name with
  | some vectorstore => ⟨some vectorstore, cache, st, false⟩
  | none =>
    let checked := check_file_for_changes hash st file_path user_id
    if checked.1 = false then
      match checked.2.lookup blob_index_name with
      | some (.zip vectorstore) =>
        ⟨some vectorstore, (blob_index_name, vectorstore) :: cache,
          checked.2, false⟩
      | _ =>
        init_retriever_rebuild hash chunksOf embed cache checked.2 user_id
          file_path blob_index_name
    else
      init_retriever_rebuild hash chunksOf embed cache checked.2 user_id
        file_path blob_index_name

end CwxAI

namespace CwxAI

/-- If any chunk's embedding raises, so does the whole
`list(executor.map(...))`. -/
lemma map_embed_error (embed : String → Except String (List Int))
    (l : List String) (h : ∃ c ∈ l, ∃ e, embed c = .error e) :
    ∃ e, map_embed embed l = .error e := by
  induction l with
  | nil => obtain ⟨c, hc, _⟩ := h; cases hc
  | cons a t ih =>
    obtain ⟨c, hc, e, he⟩ := h
    rcases List.mem_cons.mp hc with h' | h'
    · subst h'
      exact ⟨e, by simp [map_embed, he]⟩
    · cases ha : embed a with
      | error e' => exact ⟨e', by simp [map_embed, ha]⟩
      | ok v =>
        obtain ⟨e', he'⟩ := ih ⟨c, h', e, he⟩
        exact ⟨e', by simp [map_embed, ha, he']⟩

/-- If every chunk embeds successfully, `map_embed` collects all the
vectors. -/
lemma map_embed_ok (embed : String → Except String (List Int))
    (l : List String) (h : ∀ c ∈ l, ∃ v, embed c = .ok v) :
    ∃ vs, map_embed embed l = .ok vs := by
  induction l with
  | nil => exact ⟨[], rfl⟩
  | cons a t ih =>
    obtain ⟨v, hv⟩ := h a (List.mem_cons_self a t)
    obtain ⟨vs, hvs⟩ := ih fun c hc => h c (List.mem_cons_of_mem a hc)
    exact ⟨v :: vs, by simp [map_embed, hv, hvs]⟩

/-- Demonstration inputs for the index-cache theorems: a two-chunk
artifact whose second chunk fails to embed. -/
def demo_embed : String → Except String (List Int) :=
  fun c => if c = "b" then .error "embedding failed" else .ok [1]

def demo_chunks : List Nat → List String := fun _ => ["a", "b"]

def demo_hash (b : List Nat) : String :=
  if b.length ≤ 1 then "h1" else "h2"

/-- C7 counterexample: with chunks `["a", "b"]` where only `"b"` fails to
embed, `rebuild_faiss_index` returns no index at all and uploads nothing —
the surviving chunk `"a"` is **not** kept as a partial index. -/
theorem embed_failure_whole_build_cex :
    rebuild_faiss_index demo_hash demo_chunks demo_embed
        [("f", .raw [0])] "u" "f" "idx" =
      (none, [("f", .raw [0])]) := by
  rfl

/-- C7 (amended): an embedding failure for **any** chunk propagates out of
`executor.map`, is caught by the surrounding `try`/`except`, and makes
`rebuild_faiss_index` return `None` with the blob store untouched — failed
chunks are not skipped and no partial index is produced; only when every
chunk embeds successfully is an index built, and it contains **all** the
chunks. -/
theorem embed_failure_aborts_build (hash : List Nat → String)
    (chunksOf : List Nat → List String)
    (embed : String → Except String (List Int)) (st : BlobStore)
    (user_id file_path blob_index_name : String) (bytes : List Nat)
    (hfile : st.lookup file_path = some (.raw bytes)) :
    ((∃ c ∈ chunksOf bytes, ∃ e, embed c = .error e) →
      rebuild_faiss_index hash chunksOf embed st user_id file_path
        blob_index_name = (none, st)) ∧
    ((∀ c ∈ chunksOf bytes, ∃ v, embed c = .ok v) → chunksOf bytes ≠ [] →
      ∃ vecs, (rebuild_faiss_index hash chunksOf embed st user_id file_path
        blob_index_name).1 = some ⟨chunksOf bytes, vecs⟩) := by
  constructor
  · intro h
    obtain ⟨e, he⟩ := map_embed_error embed (chunksOf bytes) h
    have hne : chunksOf bytes ≠ [] := by
      obtain ⟨c, hc, _⟩ := h
      intro hnil
      rw [hnil] at hc
      cases hc
    simp [rebuild_faiss_index, hfile, hne, he]
  · intro h hne
    obtain ⟨vs, hvs⟩ := map_embed_ok embed (chunksOf bytes) h
    exact ⟨vs, by simp [rebuild_faiss_index, hfile, hne, hvs]⟩

/-- Witness for `embed_failure_aborts_build` on the demonstration
inputs. -/
theorem embed_failure_aborts_build_witness :
    ((∃ c ∈ demo_chunks [0], ∃ e, demo_embed c = .error e) →
      rebuild_faiss_index demo_hash demo_chunks demo_embed
        [("f", .raw [0])] "u" "f" "idx" = (none, [("f", .raw [0])])) ∧
    ((∀ c ∈ demo_chunks [0], ∃ v, demo_embed c = .ok v) →
      demo_chunks [0] ≠ [] →
      ∃ vecs, (rebuild_faiss_index demo_hash demo_chunks demo_embed
        [("f", .raw [0])] "u" "f" "idx").1 = some ⟨demo_chunks [0], vecs⟩) :=
  embed_failure_aborts_build demo_hash demo_chunks demo_embed
    [("f", .raw [0])] "u" "f" "idx" [0] rfl

/-! ### The fingerprint / cache discipline of `initialize_retriever` -/

/-- An artifact whose chunking depends on its bytes, an embedding that
always succeeds, and a store holding the one-byte artifact. -/
def demo_chunks2 : List Nat → List String :=
  fun b => [if b.length ≤ 1 then "old" else "new"]

def demo_all_ok_embed : String → Except String (List Int) := fun _ => .ok [1]

def demo_store : BlobStore := [("u-idea.json", .raw [0])]

def demoIdx : FaissIndex := ⟨["old"], [[1]]⟩

/-- First call: cold cache, no marker — rebuilds and populates the cache. -/
def demo_run1 : RetrieverRun :=
  init_retriever demo_hash demo_chunks2 demo_all_ok_embed [] demo_store
    "u" "u-idea.json"

/-- The artifact's bytes are then overwritten. -/
def demo_mutated_store : BlobStore :=
  upload_blob_data demo_run1.store "u-idea.json" (.raw [0, 1])

/-- Second call, after the mutation, with the warm in-process cache. -/
def demo_run2 : RetrieverRun :=
  init_retriever demo_hash demo_chunks2 demo_all_ok_embed demo_run1.cache
    demo_mutated_store "u" "u-idea.json"

/-- C5 counterexample: after the artifact bytes change, a call served from
the warm `FAISS_INDEX_CACHE` performs **no** rebuild and never computes a
fingerprint — it returns the stale index built from the old bytes (chunks
`["old"]`, while the current artifact would chunk to `["new"]`), even
though the fresh fingerprint `"h2"` differs from the stored marker
`"h1"`. -/
theorem stale_cache_skips_rebuild_cex :
    demo_run1.rebuilt = true ∧
    demo_run2.rebuilt = false ∧
    demo_run2.index = demo_run1.index ∧
    demo_run2.index = some demoIdx ∧
    demo_chunks2 [0, 1] = ["new"] ∧
    compute_file_hash demo_hash demo_mutated_store "u-idea.json" = "h2" ∧
    demo_mutated_store.lookup (hash_marker_name "u" "u-idea.json") =
      some (.text "h1") := by
  refine ⟨rfl, rfl, rfl, rfl, rfl, rfl, rfl⟩

/-- The rebuild path always reports a rebuild. -/
lemma init_retriever_rebuild_rebuilt (hash : List Nat → String)
    (chunksOf : List Nat → List String)
    (embed : String → Except String (List Int)) (cache : FaissCache)
    (st : BlobStore) (user_id file_path blob_index_name : String) :
    (init_retriever_rebuild hash chunksOf embed cache st user_id file_path
      blob_index_name).rebuilt = true := by
  unfold init_retriever_rebuild
  rcases hr : rebuild_faiss_index hash chunksOf embed st user_id file_path
    blob_index_name with ⟨oi, st'⟩
  cases oi <;> simp

/-- When the rebuild path returns an index, it has cached it under the
index blob name. -/
lemma init_retriever_rebuild_cache (hash : List Nat → String)
    (chunksOf : List Nat → List String)
    (embed : String → Except String (List Int)) (cache : FaissCache)
    (st : BlobStore) (user_id file_path blob_index_name : String)
    (v : FaissIndex)
    (h : (init_retriever_rebuild hash chunksOf embed cache st user_id
      file_path blob_index_name).index = some v) :
    (init_retriever_rebuild hash chunksOf embed cache st user_id file_path
      blob_index_name).cache.lookup blob_index_name = some v := by
  unfold init_retriever_rebuild at h ⊢
  rcases hr : rebuild_faiss_index hash chunksOf embed st user_id file_path
    blob_index_name with ⟨oi, st'⟩
  rw [hr] at h
  cases oi with
  | none => simp at h
  | some v' =>
    simp at h ⊢
    exact h

/-- A fingerprint check reporting "unchanged" leaves the store untouched. -/
lemma check_unchanged_store (hash : List Nat → String) (st : BlobStore)
    (file_path user_id : String)
    (h : (check_file_for_changes hash st file_path user_id).1 = false) :
    (check_file_for_changes hash st file_path user_id).2 = st := by
  rcases hm : st.lookup (hash_marker_name user_id file_path) with _ | val
  · simp [check_file_for_changes, hm] at h
  · cases val with
    | raw b => simp [check_file_for_changes, hm] at h
    | zip v => simp [check_file_for_changes, hm] at h
    | text prev =>
      by_cases he : compute_file_hash hash st file_path = prev
      · simp [check_file_for_changes, hm, he]
      · simp [check_file_for_changes, hm, he] at h

/-- Whenever `initialize_retriever` returns an index, that index sits in
the in-process cache under the index blob name afterwards. -/
lemma init_retriever_cache_of_index (hash : List Nat → String)
    (chunksOf : List Nat → List String)
    (embed : String → Except String (List Int)) (cache : FaissCache)
    (st : BlobStore) (user_id file_path : String) (v : FaissIndex)
    (h : (init_retriever hash chunksOf embed cache st user_id
      file_path).index = some v) :
    (init_retriever hash chunksOf embed cache st user_id
      file_path).cache.lookup (faiss_index_name user_id file_path) =
        some v := by
  rcases hc : cache.lookup (faiss_index_name user_id file_path) with _ | v'
  · simp only [init_retriever, hc] at h ⊢
    by_cases hchk : (check_file_for_changes hash st file_path user_id).1 = false
    · simp only [hchk, if_true, reduceIte] at h ⊢
      rcases hlk : (check_file_for_changes hash st file_path
          user_id).2.lookup (faiss_index_name user_id file_path) with _ | val
      · simp only [hlk] at h ⊢
        exact init_retriever_rebuild_cache _ _ _ _ _ _ _ _ _ h
      · cases val with
        | raw b =>
          simp only [hlk] at h ⊢
          exact init_retriever_rebuild_cache _ _ _ _ _ _ _ _ _ h
        | text s =>
          simp only [hlk] at h ⊢
          exact init_retriever_rebuild_cache _ _ _ _ _ _ _ _ _ h
        | zip v'' =>
          simp only [hlk] at h ⊢
          simp at h
          subst h
          simp [List.lookup]
    · simp only [hchk, reduceIte] at h ⊢
      exact init_retriever_rebuild_cache _ _ _ _ _ _ _ _ _ h
  · simp only [init_retriever, hc] at h ⊢
    simp at h
    subst h
    rfl

/-- C5 (amended): (a) a warm in-process cache entry is returned directly —
no fingerprint check, no rebuild, and possibly stale; (b) every call that
returns an index leaves it cached, so (c) a second call for the same
`(user, file)` performs no rebuild and returns the same index — in
particular at most one rebuild happens while the artifact is unchanged;
(d) the fingerprint check reports "unchanged" exactly when the stored
marker equals the freshly computed hash; (e) with a cold cache, a changed
fingerprint always triggers a rebuild; (f) with a cold cache, an unchanged
fingerprint and a persisted index blob, the index is deserialized and
cached without a rebuild. -/
theorem index_cache_fingerprint (hash : List Nat → String)
    (chunksOf : List Nat → List String)
    (embed : String → Except String (List Int)) (cache : FaissCache)
    (st : BlobStore) (user_id file_path : String) (v : FaissIndex) :
    (cache.lookup (faiss_index_name user_id file_path) = some v →
      init_retriever hash chunksOf embed cache st user_id file_path =
        ⟨some v, cache, st, false⟩) ∧
    ((init_retriever hash chunksOf embed cache st user_id file_path).index =
        some v →
      (init_retriever hash chunksOf embed cache st user_id
        file_path).cache.lookup (faiss_index_name user_id file_path) =
          some v) ∧
    ((init_retriever hash chunksOf embed cache st user_id file_path).index =
        some v →
      init_retriever hash chunksOf embed
          (init_retriever hash chunksOf embed cache st user_id
            file_path).cache
          (init_retriever hash chunksOf embed cache st user_id
            file_path).store user_id file_path =
        ⟨some v,
          (init_retriever hash chunksOf embed cache st user_id
            file_path).cache,
          (init_retriever hash chunksOf embed cache st user_id
            file_path).store, false⟩) ∧
    ((check_file_for_changes hash st file_path user_id).1 = false ↔
      st.lookup (hash_marker_name user_id file_path) =
        some (.text (compute_file_hash hash st file_path))) ∧
    (cache.lookup (faiss_index_name user_id file_path) = none →
      (check_file_for_changes hash st file_path user_id).1 = true →
      (init_retriever hash chunksOf embed cache st user_id
        file_path).rebuilt = true) ∧
    (cache.lookup (faiss_index_name user_id file_path) = none →
      (check_file_for_changes hash st file_path user_id).1 = false →
      st.lookup (faiss_index_name user_id file_path) = some (.zip v) →
      init_retriever hash chunksOf embed cache st user_id file_path =
        ⟨some v, (faiss_index_name user_id file_path, v) :: cache, st,
          false⟩) := by
  refine ⟨?_, ?_, ?_, ?_, ?_, ?_⟩
  · intro h
    simp [init_retriever, h]
  · exact init_retriever_cache_of_index hash chunksOf embed cache st
      user_id file_path v
  · intro h
    have hcache := init_retriever_cache_of_index hash chunksOf embed cache
      st user_id file_path v h
    generalize init_retriever hash chunksOf embed cache st user_id
      file_path = r at hcache ⊢
    simp [init_retriever, hcache]
  · rcases hm : st.lookup (hash_marker_name user_id file_path) with _ | val
    · simp [check_file_for_changes, hm]
    · cases val with
      | raw b => simp [check_file_for_changes, hm]
      | zip v' => simp [check_file_for_changes, hm]
      | text prev =>
        by_cases he : compute_file_hash hash st file_path = prev
        · simp [check_file_for_changes, hm, he]
        · simp [check_file_for_changes, hm, he]
          exact fun h' => he h'.symm
  · intro hc hchk
    simp only [init_retriever, hc]
    have : ¬ ((check_file_for_changes hash st file_path user_id).1 = false) := by
      simp [hchk]
    simp only [this, reduceIte]
    exact init_retriever_rebuild_rebuilt _ _ _ _ _ _ _ _
  · intro hc hchk hzip
    have hst := check_unchanged_store hash st file_path user_id hchk
    simp only [init_retriever, hc, hchk, reduceIte, hst, hzip]

/-- A store holding the one-byte artifact, a matching fingerprint marker
and a persisted serialized index. -/
def demo_warm_store : BlobStore :=
  [("u-idea.json", .raw [0]),
   (hash_marker_name "u" "u-idea.json", .text "h1"),
   (faiss_index_name "u" "u-idea.json", .zip demoIdx)]

/-- Witness for `index_cache_fingerprint`, discharging each conjunct's
hypotheses at concrete stores and caches. -/
theorem index_cache_fingerprint_witness :
    (init_retriever demo_hash demo_chunks2 demo_all_ok_embed
        [(faiss_index_name "u" "u-idea.json", demoIdx)] demo_store
        "u" "u-idea.json" =
      ⟨some demoIdx, [(faiss_index_name "u" "u-idea.json", demoIdx)],
        demo_store, false⟩) ∧
    (init_retriever demo_hash demo_chunks2 demo_all_ok_embed demo_run1.cache
        demo_run1.store "u" "u-idea.json" =
      ⟨some demoIdx, demo_run1.cache, demo_run1.store, false⟩) ∧
    ((check_file_for_changes demo_hash demo_mutated_store "u-idea.json"
        "u").1 = false ↔
      demo_mutated_store.lookup (hash_marker_name "u" "u-idea.json") =
        some (.text (compute_file_hash demo_hash demo_mutated_store
          "u-idea.json"))) ∧
    ((init_retriever demo_hash demo_chunks2 demo_all_ok_embed []
        demo_mutated_store "u" "u-idea.json").rebuilt = true) ∧
    (init_retriever demo_hash demo_chunks2 demo_all_ok_embed []
        demo_warm_store "u" "u-idea.json" =
      ⟨some demoIdx, [(faiss_index_name "u" "u-idea.json", demoIdx)],
        demo_warm_store, false⟩) :=
  ⟨(index_cache_fingerprint demo_hash demo_chunks2 demo_all_ok_embed
      [(faiss_index_name "u" "u-idea.json", demoIdx)] demo_store
      "u" "u-idea.json" demoIdx).1 rfl,
   (index_cache_fingerprint demo_hash demo_chunks2 demo_all_ok_embed []
      demo_store "u" "u-idea.json" demoIdx).2.2.1 rfl,
   (index_cache_fingerprint demo_hash demo_chunks2 demo_all_ok_embed []
      demo_mutated_store "u" "u-idea.json" demoIdx).2.2.2.1,
   (index_cache_fingerprint demo_hash demo_chunks2 demo_all_ok_embed []
      demo_mutated_store "u" "u-idea.json" demoIdx).2.2.2.2.1 rfl rfl,
   (index_cache_fingerprint demo_hash demo_chunks2 demo_all_ok_embed []
      demo_warm_store "u" "u-idea.json" demoIdx).2.2.2.2.2 rfl rfl rfl⟩

end CwxAI
